import Mathlib

/-!
Shallow embedding of the message.ai fastify backend (src/app.js).

The server keeps two process-wide mutable JS objects,
`let users = {}` and `let groups = {}`, a registry of live websocket
clients (`fastify.websocketServer.clients`, each tagged with
`socket.id = userId` and `socket.groupId = groupId` at connect time),
and a durable Firestore document store with a `groups` and a `users`
collection.  JS objects keyed by strings are modelled as association
lists with last-write-wins insert; external collaborators (Clerk
identity lookup, Firestore reads/writes, the Groq completion call)
are modelled as oracle parameters so that both their success and
failure paths are covered.
-/

set_option maxHeartbeats 1000000

namespace MessageAi

/-! ### Association-list maps (model of JS plain objects keyed by strings) -/

def findKey {α : Type} (m : List (String × α)) (k : String) : Option α :=
  match m with
  | [] => none
  | (k1, v) :: rest => if k1 = k then some v else findKey rest k

def eraseKey {α : Type} (m : List (String × α)) (k : String) : List (String × α) :=
  m.filter (fun p => p.1 != k)

def insertKey {α : Type} (m : List (String × α)) (k : String) (v : α) :
    List (String × α) :=
  (k, v) :: eraseKey m k

/-- JS truthiness test for an optional string: `!x` is true when the value is
absent (`undefined`) or the empty string. -/
def jsFalsy (o : Option String) : Bool :=
  match o with
  | none => true
  | some s => s == ""

/-- Model of the JS `String.prototype.trim` applied to an incoming frame. -/
def isWs (c : Char) : Bool :=
  c == ' ' || c == '\t' || c == '\n' || c == '\r'

def jsTrim (s : String) : String :=
  ⟨((s.data.dropWhile isWs).reverse.dropWhile isWs).reverse⟩

/-- Firestore `arrayUnion`: append the element unless it is already present. -/
def arrayUnion {α : Type} [DecidableEq α] (l : List α) (x : α) : List α :=
  if x ∈ l then l else l ++ [x]

/-! ### Data model -/

/-- A chat message record as built by the handlers; `query` is present only on
AI-assistant messages (`JSON.stringify` drops absent fields). -/
structure ChatMessage where
  userId : String
  name : String
  query : Option String
  message : String
  timestamp : Nat
deriving Repr, DecidableEq

/-- Durable group document: `{id, userId, name, messages, members}`. -/
structure Group where
  id : String
  userId : String
  name : String
  messages : List ChatMessage
  members : List String
deriving Repr, DecidableEq

/-- One entry of a user profile's denormalized `groups` index. -/
structure UserGroupEntry where
  id : String
  name : String
deriving Repr, DecidableEq

/-- Durable user document: `{id, groups}`. -/
structure UserProfile where
  id : String
  groups : List UserGroupEntry
deriving Repr, DecidableEq

/-- The durable document store: the `groups` and `users` collections. -/
structure Firestore where
  groupDocs : List (String × Group)
  userDocs : List (String × UserProfile)
deriving Repr, DecidableEq

/-- In-memory entry of `users`: `users[userId] = { name }`. -/
structure ConnectedUser where
  name : String
deriving Repr, DecidableEq

/-- In-memory entry of `groups`: `groups[groupId] = { members }`. -/
structure GroupCacheEntry where
  members : List String
deriving Repr, DecidableEq

def UsersMap := List (String × ConnectedUser)
deriving instance Repr, DecidableEq for UsersMap

def GroupsMap := List (String × GroupCacheEntry)
deriving instance Repr, DecidableEq for GroupsMap

/-- A live websocket client; `id` and `groupId` are the tags the connect
handler writes (`socket.id = userId; socket.groupId = groupId`), absent on a
socket that was never tagged.  `readyState == 1` is the OPEN transport state. -/
structure Client where
  readyState : Nat
  id : Option String
  groupId : Option String
deriving Repr, DecidableEq

/-! ### Serialization (`JSON.stringify` of the message object) -/

def jsonStr (s : String) : String := "\"" ++ s ++ "\""

/-- `JSON.stringify` of the broadcast object, with the field order of the
source (`userId, name, [query,] message, timestamp`); an absent `query` is
dropped, as `JSON.stringify` drops `undefined` fields. -/
def ChatMessage.serialize (m : ChatMessage) : String :=
  "\x7b" ++ "\"userId\":" ++ jsonStr m.userId ++ ",\"name\":" ++ jsonStr m.name ++
    (match m.query with
     | none => ""
     | some q => ",\"query\":" ++ jsonStr q) ++
    ",\"message\":" ++ jsonStr m.message ++
    ",\"timestamp\":" ++ toString m.timestamp ++ "\x7d"

/-! ### Group broadcast router

Both broadcast loops (`socket.on("message")` and `POST /chat`) run
`fastify.websocketServer.clients.forEach(client => { if (client.readyState === 1
&& client.groupId === groupId && groups[groupId].members.includes(client.id))
client.send(JSON.stringify(data)); })`.  The third conjunct is only evaluated
when the second holds, and a client can only carry a `groupId` tag that the
connect handler also cached in `groups`, so a missing cache entry delivers
nothing. -/

def shouldDeliver (gmap : GroupsMap) (groupId : String) (c : Client) : Bool :=
  c.readyState == 1 && c.groupId == some groupId &&
    (match findKey gmap groupId, c.id with
     | some e, some uid => e.members.contains uid
     | _, _ => false)

/-- The sends performed by one broadcast pass: each client passing the delivery
predicate receives the serialized payload. -/
def broadcastSends (gmap : GroupsMap) (groupId : String) (payload : String)
    (clients : List Client) : List (Client × String) :=
  clients.filterMap (fun c =>
    if shouldDeliver gmap groupId c then some (c, payload) else none)

/-! ### Basic lemmas about the maps and the router -/

theorem findKey_insert_self {α : Type} (m : List (String × α)) (k : String) (v : α) :
    findKey (insertKey m k v) k = some v := by
  simp [insertKey, findKey]

theorem eraseKey_idem {α : Type} (m : List (String × α)) (k : String) :
    eraseKey (eraseKey m k) k = eraseKey m k := by
  unfold eraseKey
  induction m with
  | nil => rfl
  | cons a t ih =>
    by_cases h : a.1 = k
    · simp [List.filter_cons, h, ih]
    · simp [List.filter_cons, h, ih]

theorem eraseKey_cons_self {α : Type} (t : List (String × α)) (k : String) (v : α) :
    eraseKey ((k, v) :: t) k = eraseKey t k := by
  unfold eraseKey
  rw [List.filter_cons]
  simp

theorem eraseKey_insert {α : Type} (m : List (String × α)) (k : String) (v : α) :
    eraseKey (insertKey m k v) k = eraseKey m k := by
  show eraseKey ((k, v) :: eraseKey m k) k = eraseKey m k
  rw [eraseKey_cons_self]
  exact eraseKey_idem m k

theorem shouldDeliver_iff (gmap : GroupsMap) (groupId : String) (c : Client) :
    shouldDeliver gmap groupId c = true ↔
      c.readyState = 1 ∧ c.groupId = some groupId ∧
        ∃ e, findKey gmap groupId = some e ∧
          ∃ uid, c.id = some uid ∧ uid ∈ e.members := by
  unfold shouldDeliver
  cases hf : findKey gmap groupId <;> cases hi : c.id <;>
    simp [hf, hi, List.elem_iff, and_assoc]

theorem mem_broadcastSends (gmap : GroupsMap) (groupId : String) (payload : String)
    (clients : List Client) (c : Client) (s : String) :
    (c, s) ∈ broadcastSends gmap groupId payload clients ↔
      c ∈ clients ∧ shouldDeliver gmap groupId c = true ∧ s = payload := by
  unfold broadcastSends
  rw [List.mem_filterMap]
  constructor
  · rintro ⟨a, ha, hf⟩
    by_cases hd : shouldDeliver gmap groupId a = true
    · simp only [hd, if_true] at hf
      obtain ⟨rfl, rfl⟩ : a = c ∧ payload = s := by
        constructor <;> [exact congrArg Prod.fst (Option.some.inj hf);
          exact congrArg Prod.snd (Option.some.inj hf)]
      exact ⟨ha, hd, rfl⟩
    · simp [hd] at hf
  · rintro ⟨hc, hd, rfl⟩
    exact ⟨c, hc, by simp [hd]⟩

/-! ### Connection lifecycle: `GET /message` websocket handler

The handler reads `userId` and `groupId` from the query, throws
`"User id is required."` / `"Group id is required."` when falsy (outside the
`try`), then inside the `try` resolves the user with Clerk, fetches the group
document, checks membership, and only then writes `users[user.id]`,
`groups[groupId]` and the socket tags; any exception in the `try` is caught
and answered with `socket.close(4001, "Error: Unauthorized.")`.  External
collaborators are oracles: `clerk` (`none` = lookup rejected) and
`fetchGroup` (`none` = `!groupSnap.exists()`). -/

structure ClerkUser where
  id : String
  firstName : String
  lastName : String
deriving Repr, DecidableEq

inductive ConnResult where
  | missingParam (msg : String)
  | closed (code : Nat) (reason : String)
  | ok
deriving Repr, DecidableEq

structure ConnOutcome where
  result : ConnResult
  users : UsersMap
  groups : GroupsMap
  tags : Option (String × String)
  clerkCalled : Bool
  groupFetched : Bool
deriving Repr, DecidableEq

def handleConnect (umap : UsersMap) (gmap : GroupsMap)
    (qUserId qGroupId : Option String)
    (clerk : String → Option ClerkUser)
    (fetchGroup : String → Option Group) : ConnOutcome :=
  if jsFalsy qUserId then
    ⟨.missingParam "User id is required.", umap, gmap, none, false, false⟩
  else if jsFalsy qGroupId then
    ⟨.missingParam "Group id is required.", umap, gmap, none, false, false⟩
  else
    let userId := qUserId.getD ""
    let groupId := qGroupId.getD ""
    match clerk userId with
    | none => ⟨.closed 4001 "Error: Unauthorized.", umap, gmap, none, true, false⟩
    | some user =>
      let name := jsTrim (user.firstName ++ " " ++ user.lastName)
      match fetchGroup groupId with
      | none => ⟨.closed 4001 "Error: Unauthorized.", umap, gmap, none, true, true⟩
      | some group =>
        if group.members.contains userId then
          ⟨.ok,
            insertKey umap user.id ⟨if name != "" then name else user.id⟩,
            insertKey gmap groupId ⟨group.members⟩,
            some (userId, groupId), true, true⟩
        else
          ⟨.closed 4001 "Error: Unauthorized.", umap, gmap, none, true, true⟩

/-! ### `socket.on("message")` handler

The closure captures `userId`, `groupId` and `groupRef`.  It rechecks
`users[userId]`, trims the frame, discards an empty result, builds the message
object, `await`s `updateDoc(groupRef, {messages: arrayUnion(data)})` and then
runs the broadcast loop.  The `await` is not wrapped in `try`/`catch`: a
rejected append makes the async callback throw, so nothing after it runs;
`appendOk = false` models that rejection.  `errored` records an uncaught
exception escaping the handler. -/

structure MsgOutcome where
  closed : Option (Nat × String)
  errored : Bool
  appended : List ChatMessage
  sends : List (Client × String)
deriving Repr, DecidableEq

def onMessage (umap : UsersMap) (gmap : GroupsMap) (userId groupId : String)
    (clients : List Client) (now : Nat) (appendOk : Bool) (data : String) :
    MsgOutcome :=
  match findKey umap userId with
  | none => ⟨some (4001, "Error: Unauthorized."), false, [], []⟩
  | some u =>
    let message := jsTrim data
    if message == "" then ⟨none, false, [], []⟩
    else
      let d : ChatMessage := ⟨userId, u.name, none, message, now⟩
      if appendOk then
        ⟨none, false, [d], broadcastSends gmap groupId d.serialize clients⟩
      else
        ⟨none, true, [], []⟩

/-! ### `socket.on("close")` handler

`delete users[userId]` always succeeds; `groups[groupId].members` throws a
`TypeError` when the cache entry is absent (the `delete` has already happened
by then).  The returned `Bool` records whether the handler threw. -/

def onClose (umap : UsersMap) (gmap : GroupsMap) (userId groupId : String) :
    UsersMap × GroupsMap × Bool :=
  let umap1 := eraseKey umap userId
  match findKey gmap groupId with
  | none => (umap1, gmap, true)
  | some e =>
    (umap1,
      insertKey gmap groupId ⟨e.members.filter (fun id => id != userId)⟩,
      false)

/-! ### `POST /chat` handler

Field checks answer 400; a missing `users[userId]` answers 401.  The Groq call
is the oracle `ai`: outer `none` models a rejected `await` (the handler throws
and fastify answers 500, nothing afterwards runs), inner value models
`completion.choices[0]?.message?.content` with its `|| ""` default.  On
success the handler appends the object to the group document and runs the
same broadcast loop; a rejected `updateDoc` (`appendOk = false`) likewise
escapes as an uncaught 500 before any send. -/

structure ChatTurn where
  message : String
deriving Repr, DecidableEq

structure ChatData where
  messages : List ChatTurn
  query : String
deriving Repr, DecidableEq

structure AiTurn where
  role : String
  content : String
deriving Repr, DecidableEq

def chatTranscript (d : ChatData) : List AiTurn :=
  [⟨"system", "You are a support assistant."⟩] ++
    d.messages.map (fun t => ⟨"user", t.message⟩) ++
    [⟨"user", d.query⟩]

inductive ChatResult where
  | badRequest (msg : String)
  | unauthenticated
  | serverError
  | ok
deriving Repr, DecidableEq

structure ChatOutcome where
  result : ChatResult
  appended : List ChatMessage
  sends : List (Client × String)
deriving Repr, DecidableEq

def handleChat (umap : UsersMap) (gmap : GroupsMap) (clients : List Client)
    (bUserId bGroupId : Option String) (bData : Option ChatData)
    (ai : List AiTurn → Option (Option String)) (appendOk : Bool) (now : Nat) :
    ChatOutcome :=
  if jsFalsy bUserId then ⟨.badRequest "User id is required.", [], []⟩
  else if jsFalsy bGroupId then ⟨.badRequest "Group id is required.", [], []⟩
  else if bData.isNone then
    ⟨.badRequest "Message is required to chat with AI.", [], []⟩
  else
    let userId := bUserId.getD ""
    let groupId := bGroupId.getD ""
    let data := bData.getD ⟨[], ""⟩
    match findKey umap userId with
    | none => ⟨.unauthenticated, [], []⟩
    | some u =>
      match ai (chatTranscript data) with
      | none => ⟨.serverError, [], []⟩
      | some content =>
        let message := content.getD ""
        let obj : ChatMessage := ⟨userId, u.name, some data.query, message, now⟩
        if appendOk then
          ⟨.ok, [obj], broadcastSends gmap groupId obj.serialize clients⟩
        else
          ⟨.serverError, [], []⟩

/-! ### `POST /groups` (createGroup)

After validation and the Clerk lookup, all three durable writes run inside one
`runTransaction`: create the user profile when absent, `set` the new group
document with `members: [userId]`, and `arrayUnion` the `{id, name}` entry
into the profile's `groups` index.  Firestore commits a transaction
atomically, so the model applies either every staged write (`commitOk`) or
none. -/

def createGroupTxnWrites (fs : Firestore) (userId groupId groupName : String) :
    Firestore :=
  let profile0 :=
    match findKey fs.userDocs userId with
    | none => UserProfile.mk userId []
    | some p => p
  let gdoc : Group := ⟨groupId, userId, groupName, [], [userId]⟩
  let profile1 : UserProfile :=
    ⟨profile0.id, arrayUnion profile0.groups ⟨groupId, groupName⟩⟩
  ⟨insertKey fs.groupDocs groupId gdoc, insertKey fs.userDocs userId profile1⟩

def runCreateGroup (fs : Firestore) (userId groupId groupName : String)
    (commitOk : Bool) : Firestore × Bool :=
  if commitOk then (createGroupTxnWrites fs userId groupId groupName, true)
  else (fs, false)

/-! ### `PATCH /groups` (joinGroup)

The handler validates the body, awaits the Clerk lookup, reads the group
document (`404` when absent) into `data`, then runs a transaction that
creates the profile when absent, `arrayUnion`s `{id: data.id, name:
data.name}` into the profile index and `arrayUnion`s `userId` into the stored
group's members — and finally answers `res.send(data)`, the snapshot read
before the transaction. -/

inductive PatchResult where
  | badRequest (msg : String)
  | notFound (msg : String)
  | serverError
  | ok (body : Group)
deriving Repr, DecidableEq

def handleJoinGroup (fs : Firestore) (bUserId bGroupId : Option String)
    (clerk : String → Option ClerkUser) (commitOk : Bool) :
    PatchResult × Firestore :=
  if jsFalsy bUserId then (.badRequest "User id is required.", fs)
  else if jsFalsy bGroupId then (.badRequest "Group id is required.", fs)
  else
    let userId := bUserId.getD ""
    let groupId := bGroupId.getD ""
    match clerk userId with
    | none => (.serverError, fs)
    | some _ =>
      match findKey fs.groupDocs groupId with
      | none => (.notFound "Group does not exist.", fs)
      | some data =>
        if commitOk then
          let profile0 :=
            match findKey fs.userDocs userId with
            | none => UserProfile.mk userId []
            | some p => p
          let profile1 : UserProfile :=
            ⟨profile0.id, arrayUnion profile0.groups ⟨data.id, data.name⟩⟩
          let gdoc1 : Group := { data with members := arrayUnion data.members userId }
          (.ok data,
            ⟨insertKey fs.groupDocs groupId gdoc1,
             insertKey fs.userDocs userId profile1⟩)
        else (.serverError, fs)

/-! ### Broadcast iteration with a raising send

`Set.prototype.forEach` runs the callback over each client in insertion
order; an exception thrown by `client.send` propagates out of `forEach`, so
no later client is visited.  `sendOk c = false` models a raising send; the
result is the list of completed sends and whether the iteration aborted. -/

def broadcastRun (gmap : GroupsMap) (groupId : String) (payload : String)
    (sendOk : Client → Bool) : List Client → List (Client × String) × Bool
  | [] => ([], false)
  | c :: rest =>
    if shouldDeliver gmap groupId c then
      if sendOk c then
        let r := broadcastRun gmap groupId payload sendOk rest
        ((c, payload) :: r.1, r.2)
      else ([], true)
    else broadcastRun gmap groupId payload sendOk rest

/-! ### Further helper lemmas -/

theorem filter_bool_idem {α : Type} (p : α → Bool) (l : List α) :
    (l.filter p).filter p = l.filter p := by
  induction l with
  | nil => rfl
  | cons a t ih =>
    by_cases h : p a <;> simp [List.filter_cons, h, ih]

theorem insertKey_insert_self {α : Type} (m : List (String × α)) (k : String)
    (v w : α) : insertKey (insertKey m k v) k w = insertKey m k w := by
  show (k, w) :: eraseKey (insertKey m k v) k = (k, w) :: eraseKey m k
  rw [eraseKey_insert]

theorem mem_arrayUnion_self {α : Type} [DecidableEq α] (l : List α) (x : α) :
    x ∈ arrayUnion l x := by
  unfold arrayUnion
  by_cases h : x ∈ l <;> simp [h]

/-! ### Concrete fixtures used by the witnesses and counterexamples -/

def umapEx : UsersMap := [("u1", ⟨"Alice"⟩)]

def gmapEx : GroupsMap := [("g1", ⟨["u1", "u2"]⟩)]

def clientEx : Client := ⟨1, some "u1", some "g1"⟩

def client2Ex : Client := ⟨1, some "u2", some "g1"⟩

def strangerEx : Client := ⟨1, some "u2", some "g2"⟩

def msgEx : ChatMessage := ⟨"u1", "Alice", none, "hi", 0⟩

def sendFailU1 (c : Client) : Bool := c.id != some "u1"

def clerkFail (_s : String) : Option ClerkUser := none

def clerkEx (s : String) : Option ClerkUser := some ⟨s, "A", "B"⟩

def groupEx : Group := ⟨"g1", "owner", "Team", [], ["u1", "u2"]⟩

def fetchGroupEx (s : String) : Option Group :=
  if s = "g1" then some groupEx else none

def fsEx : Firestore := ⟨[("g1", groupEx)], []⟩

def aiFailEx (_t : List AiTurn) : Option (Option String) := none

def chatDataEx : ChatData := ⟨[⟨"hey"⟩], "help"⟩

/-! ### Claims -/

/-- Claim C1: a broadcast for group `G` delivers the serialized payload to
exactly those live connections whose transport state is open
(`readyState = 1`), whose `groupId` tag equals `G`, and whose `userId` tag is
in the in-memory `groups[G].members` set; every other connection receives
nothing, and everything delivered is the serialized payload. -/
theorem broadcast_scoping (gmap : GroupsMap) (gid : String) (m : ChatMessage)
    (clients : List Client) (c : Client) (hc : c ∈ clients) :
    ((c, m.serialize) ∈ broadcastSends gmap gid m.serialize clients ↔
      c.readyState = 1 ∧ c.groupId = some gid ∧
        ∃ e, findKey gmap gid = some e ∧
          ∃ uid, c.id = some uid ∧ uid ∈ e.members) ∧
    ∀ s, (c, s) ∈ broadcastSends gmap gid m.serialize clients →
      s = m.serialize := by
  constructor
  · rw [mem_broadcastSends, shouldDeliver_iff]
    simp [hc]
  · intro s hs
    exact ((mem_broadcastSends gmap gid m.serialize clients c s).1 hs).2.2

theorem broadcast_scoping_witness :
    clientEx ∈ [clientEx, strangerEx] ∧
    ((clientEx, msgEx.serialize) ∈
      broadcastSends gmapEx "g1" msgEx.serialize [clientEx, strangerEx]) ∧
    ¬ ((strangerEx, msgEx.serialize) ∈
      broadcastSends gmapEx "g1" msgEx.serialize [clientEx, strangerEx]) := by
  refine ⟨by decide, ?_, ?_⟩
  · exact (broadcast_scoping gmapEx "g1" msgEx [clientEx, strangerEx] clientEx
      (by decide)).1.mpr
      ⟨by decide, by decide, ⟨["u1", "u2"]⟩, by decide, "u1", by decide, by decide⟩
  · intro h
    have hp := (broadcast_scoping gmapEx "g1" msgEx [clientEx, strangerEx]
      strangerEx (by decide)).1.mp h
    exact absurd hp.2.1 (by decide)

/-- Claim C2 counterexample: with a connected sender, a non-empty frame and a
matching open client, a failed durable append (`appendOk = false`) leaves the
broadcast list empty — the claim that the broadcast still occurs is false: the
unhandled rejection aborts the handler before the broadcast loop. -/
theorem append_failure_blocks_broadcast_cex :
    shouldDeliver gmapEx "g1" clientEx = true ∧
    (onMessage umapEx gmapEx "u1" "g1" [clientEx] 0 false "hello").sends = [] ∧
    (onMessage umapEx gmapEx "u1" "g1" [clientEx] 0 false "hello").errored = true := by
  refine ⟨by decide, by decide, by decide⟩

/-- Claim C2 (amended): for every incoming non-empty text message from an
authenticated connection, if the durable append fails, the rejection escapes
the handler uncaught (`errored`), nothing is appended and no broadcast occurs
— delivery to live clients happens only when the append succeeds. -/
theorem append_failure_no_broadcast (umap : UsersMap) (gmap : GroupsMap)
    (uid gid : String) (clients : List Client) (now : Nat) (data : String)
    (u : ConnectedUser) (hu : findKey umap uid = some u)
    (hne : jsTrim data ≠ "") :
    (onMessage umap gmap uid gid clients now false data).sends = [] ∧
    (onMessage umap gmap uid gid clients now false data).errored = true ∧
    (onMessage umap gmap uid gid clients now false data).appended = [] := by
  unfold onMessage
  rw [hu]
  simp [hne]

theorem append_failure_no_broadcast_witness :
    findKey umapEx "u1" = some ⟨"Alice"⟩ ∧ jsTrim "hello" ≠ "" ∧
    (onMessage umapEx gmapEx "u1" "g1" [clientEx] 0 false "hello").sends = [] ∧
    (onMessage umapEx gmapEx "u1" "g1" [clientEx] 0 false "hello").errored = true ∧
    (onMessage umapEx gmapEx "u1" "g1" [clientEx] 0 false "hello").appended = [] := by
  refine ⟨by decide, by decide, ?_⟩
  exact append_failure_no_broadcast umapEx gmapEx "u1" "g1" [clientEx] 0 "hello"
    ⟨"Alice"⟩ (by decide) (by decide)

/-- Claim C3 counterexample: two open member connections of the same group;
the send to the first raises, and the second — though matching and with a
send that would succeed — receives nothing, because the exception aborts the
`forEach` iteration: the claim that delivery still proceeds is false. -/
theorem send_failure_aborts_cex :
    shouldDeliver gmapEx "g1" client2Ex = true ∧
    sendFailU1 client2Ex = true ∧
    broadcastRun gmapEx "g1" "payload" sendFailU1 [clientEx, client2Ex] =
      ([], true) := by
  refine ⟨by decide, by decide, by decide⟩

/-- Claim C3 (amended): a raising send on a matching connection aborts the
broadcast iteration: when every earlier matching client's send succeeds and
client `c` matches but its send raises, exactly the matching clients before
`c` in iteration order have received the payload, and the iteration ends with
the exception — later connections receive nothing. -/
theorem send_failure_aborts (gmap : GroupsMap) (gid payload : String)
    (sendOk : Client → Bool) (pre : List Client) (c : Client)
    (post : List Client)
    (hpre : ∀ a ∈ pre, shouldDeliver gmap gid a = true → sendOk a = true)
    (hc : shouldDeliver gmap gid c = true) (hfail : sendOk c = false) :
    broadcastRun gmap gid payload sendOk (pre ++ c :: post) =
      ((pre.filter (shouldDeliver gmap gid)).map (fun a => (a, payload)),
        true) := by
  induction pre with
  | nil => simp [broadcastRun, hc, hfail]
  | cons a t ih =>
    have ht : ∀ b ∈ t, shouldDeliver gmap gid b = true → sendOk b = true :=
      fun b hb h2 => hpre b (by simp [hb]) h2
    by_cases hd : shouldDeliver gmap gid a = true
    · have hs := hpre a (by simp) hd
      simp [broadcastRun, hd, hs, List.filter_cons, ih ht]
    · simp [broadcastRun, hd, List.filter_cons, ih ht]

theorem send_failure_aborts_witness :
    shouldDeliver gmapEx "g1" clientEx = true ∧ sendFailU1 clientEx = false ∧
    broadcastRun gmapEx "g1" "p" sendFailU1 ([] ++ clientEx :: [client2Ex]) =
      ([], true) := by
  refine ⟨by decide, by decide, ?_⟩
  exact send_failure_aborts gmapEx "g1" "p" sendFailU1 [] clientEx [client2Ex]
    (fun a ha => absurd ha (by simp)) (by decide) (by decide)

/-- Claim C4: on any connection attempt where identity resolution fails, the
group does not exist, or the user is not in the fetched member list, the
socket is closed with code 4001 and reason `"Error: Unauthorized."`, the
`users` and `groups` maps are unchanged, and the socket is left untagged. -/
theorem auth_failure_no_partial_state (umap : UsersMap) (gmap : GroupsMap)
    (qU qG : Option String) (clerk : String → Option ClerkUser)
    (fetchGroup : String → Option Group)
    (hU : jsFalsy qU = false) (hG : jsFalsy qG = false)
    (hfail : clerk (qU.getD "") = none ∨
      fetchGroup (qG.getD "") = none ∨
      ∃ user g, clerk (qU.getD "") = some user ∧
        fetchGroup (qG.getD "") = some g ∧ (qU.getD "") ∉ g.members) :
    (handleConnect umap gmap qU qG clerk fetchGroup).result =
      .closed 4001 "Error: Unauthorized." ∧
    (handleConnect umap gmap qU qG clerk fetchGroup).users = umap ∧
    (handleConnect umap gmap qU qG clerk fetchGroup).groups = gmap ∧
    (handleConnect umap gmap qU qG clerk fetchGroup).tags = none := by
  rcases hfail with hclerk | hfetch | ⟨user, g, hcu, hg, hmem⟩
  · simp [handleConnect, hU, hG, hclerk]
  · cases hclerk : clerk (qU.getD "") with
    | none => simp [handleConnect, hU, hG, hclerk]
    | some user => simp [handleConnect, hU, hG, hclerk, hfetch]
  · simp [handleConnect, hU, hG, hcu, hg, hmem]

theorem auth_failure_no_partial_state_witness :
    jsFalsy (some "u9") = false ∧ jsFalsy (some "g1") = false ∧
    clerkEx "u9" = some ⟨"u9", "A", "B"⟩ ∧
    fetchGroupEx "g1" = some groupEx ∧ "u9" ∉ groupEx.members ∧
    (handleConnect umapEx gmapEx (some "u9") (some "g1") clerkEx
      fetchGroupEx).result = .closed 4001 "Error: Unauthorized." ∧
    (handleConnect umapEx gmapEx (some "u9") (some "g1") clerkEx
      fetchGroupEx).users = umapEx ∧
    (handleConnect umapEx gmapEx (some "u9") (some "g1") clerkEx
      fetchGroupEx).groups = gmapEx ∧
    (handleConnect umapEx gmapEx (some "u9") (some "g1") clerkEx
      fetchGroupEx).tags = none := by
  refine ⟨by decide, by decide, by decide, by decide, by decide, ?_⟩
  exact auth_failure_no_partial_state umapEx gmapEx (some "u9") (some "g1")
    clerkEx fetchGroupEx (by decide) (by decide)
    (Or.inr (Or.inr ⟨⟨"u9", "A", "B"⟩, groupEx, by decide, by decide, by decide⟩))

/-- Claim C5: an incoming frame that is empty after trimming causes no durable
append, no broadcast and no uncaught error, whatever the in-memory state: both
the stale-connection branch and the trimmed-empty branch are silent no-ops as
far as persistence and delivery are concerned. -/
theorem empty_message_noop (umap : UsersMap) (gmap : GroupsMap)
    (uid gid : String) (clients : List Client) (now : Nat) (appendOk : Bool)
    (data : String) (h : jsTrim data = "") :
    (onMessage umap gmap uid gid clients now appendOk data).appended = [] ∧
    (onMessage umap gmap uid gid clients now appendOk data).sends = [] ∧
    (onMessage umap gmap uid gid clients now appendOk data).errored = false := by
  unfold onMessage
  cases hf : findKey umap uid <;> simp [hf, h]

theorem empty_message_noop_witness :
    jsTrim " \t\n " = "" ∧
    (onMessage umapEx gmapEx "u1" "g1" [clientEx] 0 true " \t\n ").appended = [] ∧
    (onMessage umapEx gmapEx "u1" "g1" [clientEx] 0 true " \t\n ").sends = [] ∧
    (onMessage umapEx gmapEx "u1" "g1" [clientEx] 0 true " \t\n ").errored = false := by
  refine ⟨by decide, ?_⟩
  exact empty_message_noop umapEx gmapEx "u1" "g1" [clientEx] 0 true " \t\n "
    (by decide)

/-- Claim C6: when the AI completion call fails for a well-formed `POST /chat`
request from a connected user, the rejection escapes the handler uncaught (a
5xx-equivalent response, not a success), no message is appended to durable
history and no broadcast occurs. -/
theorem ai_failure_isolation (umap : UsersMap) (gmap : GroupsMap)
    (clients : List Client) (bU bG : Option String) (d : ChatData)
    (ai : List AiTurn → Option (Option String)) (appendOk : Bool) (now : Nat)
    (u : ConnectedUser)
    (hU : jsFalsy bU = false) (hG : jsFalsy bG = false)
    (hu : findKey umap (bU.getD "") = some u)
    (hai : ai (chatTranscript d) = none) :
    handleChat umap gmap clients bU bG (some d) ai appendOk now =
      ⟨.serverError, [], []⟩ := by
  unfold handleChat
  simp [hU, hG, hu, hai]

theorem ai_failure_isolation_witness :
    jsFalsy (some "u1") = false ∧ jsFalsy (some "g1") = false ∧
    findKey umapEx "u1" = some ⟨"Alice"⟩ ∧
    aiFailEx (chatTranscript chatDataEx) = none ∧
    handleChat umapEx gmapEx [clientEx] (some "u1") (some "g1")
      (some chatDataEx) aiFailEx true 0 = ⟨.serverError, [], []⟩ := by
  refine ⟨by decide, by decide, by decide, by decide, ?_⟩
  exact ai_failure_isolation umapEx gmapEx [clientEx] (some "u1") (some "g1")
    chatDataEx aiFailEx true 0 ⟨"Alice"⟩ (by decide) (by decide) (by decide)
    (by decide)

/-- Claim C7: disconnect cleanup is idempotent.  Whenever the in-memory group
cache has an entry for `groupId` — which the connect handler guarantees for
every socket whose close handler runs, since entries are never deleted —
running the close handler a second time reproduces exactly the state after
the first run, and neither run raises. -/
theorem disconnect_idempotent (umap : UsersMap) (gmap : GroupsMap)
    (uid gid : String) (e : GroupCacheEntry)
    (h : findKey gmap gid = some e) :
    onClose (onClose umap gmap uid gid).1 (onClose umap gmap uid gid).2.1
      uid gid = onClose umap gmap uid gid ∧
    (onClose umap gmap uid gid).2.2 = false := by
  constructor
  · simp only [onClose, h, findKey_insert_self]
    rw [eraseKey_idem, filter_bool_idem, insertKey_insert_self]
  · simp [onClose, h]

theorem disconnect_idempotent_witness :
    findKey gmapEx "g1" = some ⟨["u1", "u2"]⟩ ∧
    onClose (onClose umapEx gmapEx "u1" "g1").1
      (onClose umapEx gmapEx "u1" "g1").2.1 "u1" "g1" =
      onClose umapEx gmapEx "u1" "g1" ∧
    (onClose umapEx gmapEx "u1" "g1").2.2 = false := by
  refine ⟨by decide, ?_⟩
  exact disconnect_idempotent umapEx gmapEx "u1" "g1" ⟨["u1", "u2"]⟩ (by decide)

/-- Claim C8: a connection attempt with an absent `userId` or `groupId` query
parameter throws the corresponding required-parameter error before any Clerk
lookup, group fetch or cache mutation: the identity oracle and the store are
never consulted, the maps are unchanged, the socket stays untagged. -/
theorem missing_param_rejected (umap : UsersMap) (gmap : GroupsMap)
    (qU qG : Option String) (clerk : String → Option ClerkUser)
    (fetchGroup : String → Option Group)
    (h : qU = none ∨ qG = none) :
    (∃ msg, (handleConnect umap gmap qU qG clerk fetchGroup).result =
      .missingParam msg) ∧
    (handleConnect umap gmap qU qG clerk fetchGroup).clerkCalled = false ∧
    (handleConnect umap gmap qU qG clerk fetchGroup).groupFetched = false ∧
    (handleConnect umap gmap qU qG clerk fetchGroup).users = umap ∧
    (handleConnect umap gmap qU qG clerk fetchGroup).groups = gmap ∧
    (handleConnect umap gmap qU qG clerk fetchGroup).tags = none := by
  rcases h with rfl | rfl
  · exact ⟨⟨"User id is required.", rfl⟩, rfl, rfl, rfl, rfl, rfl⟩
  · have hnone : jsFalsy (none : Option String) = true := rfl
    cases hU : jsFalsy qU
    · refine ⟨⟨"Group id is required.", ?_⟩, ?_, ?_, ?_, ?_, ?_⟩ <;>
        simp [handleConnect, hU, hnone]
    · refine ⟨⟨"User id is required.", ?_⟩, ?_, ?_, ?_, ?_, ?_⟩ <;>
        simp [handleConnect, hU]

theorem missing_param_rejected_witness :
    ((some "u1" : Option String) = none ∨ (none : Option String) = none) ∧
    (handleConnect umapEx gmapEx (some "u1") none clerkEx
      fetchGroupEx).clerkCalled = false ∧
    (handleConnect umapEx gmapEx (some "u1") none clerkEx
      fetchGroupEx).groupFetched = false ∧
    (handleConnect umapEx gmapEx (some "u1") none clerkEx
      fetchGroupEx).users = umapEx ∧
    (handleConnect umapEx gmapEx (some "u1") none clerkEx
      fetchGroupEx).groups = gmapEx ∧
    (handleConnect umapEx gmapEx (some "u1") none clerkEx
      fetchGroupEx).tags = none := by
  refine ⟨Or.inr rfl, ?_⟩
  exact (missing_param_rejected umapEx gmapEx (some "u1") none clerkEx
    fetchGroupEx (Or.inr rfl)).2

/-- Claim C9: `createGroup` is atomic.  All three durable writes are staged in
one Firestore transaction, so a failed commit leaves the store exactly as it
was, and a successful commit leaves the new group document with members
`[userId]` together with the user profile whose `groups` index holds the new
`{id, name}` entry — never one without the other. -/
theorem create_group_atomic (fs : Firestore) (uid gid gname : String) :
    (runCreateGroup fs uid gid gname false).1 = fs ∧
    (runCreateGroup fs uid gid gname false).2 = false ∧
    findKey (runCreateGroup fs uid gid gname true).1.groupDocs gid =
      some ⟨gid, uid, gname, [], [uid]⟩ ∧
    ∃ p, findKey (runCreateGroup fs uid gid gname true).1.userDocs uid =
      some p ∧ UserGroupEntry.mk gid gname ∈ p.groups := by
  refine ⟨rfl, rfl, findKey_insert_self _ _ _, ⟨_, findKey_insert_self _ _ _, ?_⟩⟩
  exact mem_arrayUnion_self _ _

/-- Claim C10: a successful `PATCH /groups` answers with the group document
read before the membership transaction, while the durable document gains the
user: so a user who was not already a member is absent from the response's
member list although the store now records them. -/
theorem join_group_returns_stale (fs : Firestore) (u g : String)
    (cu : ClerkUser) (clerk : String → Option ClerkUser) (data : Group)
    (hu : u ≠ "") (hg : g ≠ "")
    (hclerk : clerk u = some cu)
    (hfind : findKey fs.groupDocs g = some data) :
    (handleJoinGroup fs (some u) (some g) clerk true).1 = .ok data ∧
    findKey (handleJoinGroup fs (some u) (some g) clerk true).2.groupDocs g =
      some { data with members := arrayUnion data.members u } ∧
    u ∈ arrayUnion data.members u ∧
    (u ∉ data.members → ∀ gr,
      (handleJoinGroup fs (some u) (some g) clerk true).1 = .ok gr →
        u ∉ gr.members) := by
  have h1 : (handleJoinGroup fs (some u) (some g) clerk true).1 = .ok data := by
    simp [handleJoinGroup, jsFalsy, hu, hg, hclerk, hfind]
  refine ⟨h1, ?_, mem_arrayUnion_self _ _, ?_⟩
  · simp [handleJoinGroup, jsFalsy, hu, hg, hclerk, hfind, findKey_insert_self]
  · intro hnm gr hgr
    rw [h1] at hgr
    have hd : data = gr := PatchResult.ok.inj hgr
    rw [← hd]
    exact hnm

theorem join_group_returns_stale_witness :
    ("u3" : String) ≠ "" ∧ ("g1" : String) ≠ "" ∧
    clerkEx "u3" = some ⟨"u3", "A", "B"⟩ ∧
    findKey fsEx.groupDocs "g1" = some groupEx ∧
    "u3" ∉ groupEx.members ∧
    (handleJoinGroup fsEx (some "u3") (some "g1") clerkEx true).1 =
      .ok groupEx ∧
    findKey (handleJoinGroup fsEx (some "u3") (some "g1") clerkEx
      true).2.groupDocs "g1" =
      some { groupEx with members := arrayUnion groupEx.members "u3" } ∧
    "u3" ∈ arrayUnion groupEx.members "u3" := by
  refine ⟨by decide, by decide, by decide, by decide, by decide, ?_⟩
  have h := join_group_returns_stale fsEx "u3" "g1" ⟨"u3", "A", "B"⟩ clerkEx
    groupEx (by decide) (by decide) (by decide) (by decide)
  exact ⟨h.1, h.2.1, h.2.2.1⟩

end MessageAi
